import Mathlib

/-!
Shallow embedding of the authentication subsystem of the fastapi-blog
repository: src/auth.py (password hashing through pwdlib, token issue and
verification through PyJWT), src/config.py (Settings), and the token
handling part of src/routers/users.py.  Time is modelled in whole seconds
as Int, claim dictionaries as association lists with Python dict update
semantics, and the cryptographic primitives (the HMAC signature and the
Argon2 digest) as concrete deterministic functions of their inputs, which
is the only property the verified code relies on.  The library behaviour
embedded here is PyJWT 2.10 and pwdlib with the recommended Argon2-only
hasher list.
-/

namespace FastapiBlog

/-- JSON claim values as used by the token payloads of this program:
strings and integer numbers (timestamps are encoded as integer seconds). -/
inductive JVal where
  | str : String → JVal
  | num : Int → JVal
deriving DecidableEq

/-- A claim set: a Python dict from claim names to values, modelled as an
association list with unique keys kept in insertion order. -/
abbrev Claims := List (String × JVal)

/-- Python dict lookup, d.get(k). -/
def claims_lookup (k : String) : Claims → Option JVal
  | [] => none
  | (k2, v) :: rest => if k2 = k then some v else claims_lookup k rest

/-- Python dict update semantics of d.update with a single key: replace
the value in place when the key is present, otherwise append the new
binding at the end. -/
def claims_set : Claims → String → JVal → Claims
  | [], k, v => [(k, v)]
  | (k2, v2) :: rest, k, v =>
    if k2 = k then (k, v) :: rest else (k2, v2) :: claims_set rest k v

/-- src/config.py: class Settings(BaseSettings) with a required SECRET_KEY
and the field defaults ALGORITHM = "HS256" and
ACCESS_TOKEN_EXPIRE_MINUTES = 30. -/
structure Settings where
  SECRET_KEY : String
  ALGORITHM : String
  ACCESS_TOKEN_EXPIRE_MINUTES : Int
deriving DecidableEq

/-- The Settings value pydantic builds when the environment supplies only
SECRET_KEY: the other two fields take the defaults declared in
src/config.py. -/
def Settings.ofSecretKey (key : String) : Settings :=
  { SECRET_KEY := key, ALGORITHM := "HS256", ACCESS_TOKEN_EXPIRE_MINUTES := 30 }

/-- Rolling code of a string, used to build the deterministic models of
the keyed digests below. -/
def strCode (s : String) : Nat :=
  s.foldl (fun a c => a * 65599 + c.toNat + 1) 1

/-- Code of a claim value. -/
def jvalCode : JVal → Nat
  | .str s => 3 * strCode s
  | .num n => 3 * n.natAbs + (if n < 0 then 1 else 2)

/-- Code of a claim set. -/
def claimsCode (c : Claims) : Nat :=
  c.foldl (fun a kv => (a * 65599 + strCode kv.1) * 65599 + jvalCode kv.2) 7

/-- Model of the HMAC-SHA256 signature PyJWT computes over the header and
payload with the secret key: a deterministic digest of the key, the
algorithm name and the claim set.  The embedding relies only on the fact
that the signature is recomputable by any holder of the same key. -/
def hmac_sign (key alg : String) (c : Claims) : Nat :=
  ((strCode key * 65599 + strCode alg) * 65599 + claimsCode c) % 2 ^ 64

/-- A structurally well-formed three-part token: the claim payload, the
algorithm named in the header, and the signature value. -/
structure Jwt where
  claims : Claims
  alg : String
  sig : Nat
deriving DecidableEq

/-- jwt.encode(payload, key, algorithm): sign the claim set with the key
under the named algorithm. -/
def jwt_encode (c : Claims) (key alg : String) : Jwt :=
  { claims := c, alg := alg, sig := hmac_sign key alg c }

/-- The space of input strings to token verification, partitioned the way
PyJWT decoding sees them: strings that are not a well-formed three-part
token at all, and well-formed ones carrying a payload, a header algorithm
and a signature. -/
inductive TokenStr where
  | malformed : String → TokenStr
  | wellFormed : Jwt → TokenStr
deriving DecidableEq

/-- Exception outcomes jwt.decode can raise on a string input.  Each
constructor is one PyJWT exception class; isInvalidTokenError records
where each sits in the exception hierarchy. -/
inductive JwtError where
  | decodeError : JwtError
  | invalidSignatureError : JwtError
  | invalidAlgorithmError : JwtError
  | missingRequiredClaimError : String → JwtError
  | expiredSignatureError : JwtError
  | invalidSubjectError : JwtError
deriving DecidableEq

/-- Value of a nonempty run of decimal digits, accumulated left to right;
none as soon as a non-digit character appears. -/
def digits_val : List Char → Nat → Option Nat
  | [], acc => some acc
  | c :: rest, acc =>
    if c.isDigit then digits_val rest (acc * 10 + (c.toNat - 48)) else none

/-- Model of Python int(s) applied to a decimal string: strip surrounding
whitespace, allow one leading sign, then a nonempty run of decimal
digits; none when the call would raise ValueError. -/
def pyint_parse (s : String) : Option Int :=
  let t := ((s.toList.dropWhile Char.isWhitespace).reverse.dropWhile
    Char.isWhitespace).reverse
  match t with
  | [] => none
  | c :: rest =>
    let neg : Bool := c = '-'
    let ds : List Char := if c = '-' ∨ c = '+' then rest else c :: rest
    match ds with
    | [] => none
    | _ :: _ =>
      match digits_val ds 0 with
      | none => none
      | some n => some (if neg then -(n : Int) else (n : Int))

/-- PyJWT required-claims check driven by the require option: the first
claim name missing from the payload raises MissingRequiredClaimError. -/
def validate_required (payload : Claims) : List String → Except JwtError Unit
  | [] => .ok ()
  | c :: rest =>
    match claims_lookup c payload with
    | none => .error (.missingRequiredClaimError c)
    | some _ => validate_required payload rest

/-- PyJWT expiry check with zero leeway: when an exp claim is present it
must read as an integer and satisfy now < exp; exp less than or equal to
now raises ExpiredSignatureError, a non-numeric exp raises DecodeError. -/
def validate_exp (payload : Claims) (now : Int) : Except JwtError Unit :=
  match claims_lookup "exp" payload with
  | none => .ok ()
  | some (.num e) => if e ≤ now then .error .expiredSignatureError else .ok ()
  | some (.str s) =>
    match pyint_parse s with
    | some e => if e ≤ now then .error .expiredSignatureError else .ok ()
    | none => .error .decodeError

/-- PyJWT subject check: a sub claim, when present, must be a string. -/
def validate_sub (payload : Claims) : Except JwtError Unit :=
  match claims_lookup "sub" payload with
  | none => .ok ()
  | some (.str _) => .ok ()
  | some (.num _) => .error .invalidSubjectError

/-- jwt.decode(token, key, algorithms, options with a require list):
reject inputs that are not well-formed tokens, reject a header algorithm
outside the allowed list, check the signature under the given key, then
run the claim validations in PyJWT order: required claims, expiry,
subject.  On success the payload is returned. -/
def jwt_decode (tok : TokenStr) (key : String) (algorithms : List String)
    (requireClaims : List String) (now : Int) : Except JwtError Claims :=
  match tok with
  | .malformed _ => .error .decodeError
  | .wellFormed j =>
    if j.alg ∈ algorithms then
      if j.sig = hmac_sign key j.alg j.claims then
        match validate_required j.claims requireClaims with
        | .error e => .error e
        | .ok _ =>
          match validate_exp j.claims now with
          | .error e => .error e
          | .ok _ =>
            match validate_sub j.claims with
            | .error e => .error e
            | .ok _ => .ok j.claims
      else .error .invalidSignatureError
    else .error .invalidAlgorithmError

/-- src/auth.py create_access_token: copy the caller dict, compute
expire = now + expires_delta (or now + ACCESS_TOKEN_EXPIRE_MINUTES when no
delta is supplied), set the exp claim to it, and sign with the configured
secret and algorithm.  Durations are in seconds, so the configured minutes
are scaled by 60. -/
def create_access_token (data : Claims) (expires_delta : Option Int)
    (st : Settings) (now : Int) : Jwt :=
  let expire : Int :=
    match expires_delta with
    | some d => now + d
    | none => now + st.ACCESS_TOKEN_EXPIRE_MINUTES * 60
  jwt_encode (claims_set data "exp" (.num expire)) st.SECRET_KEY st.ALGORITHM

/-- Membership of each JwtError in the jwt.InvalidTokenError class:
DecodeError, InvalidSignatureError (itself a DecodeError),
InvalidAlgorithmError, MissingRequiredClaimError, ExpiredSignatureError
and InvalidSubjectError are all subclasses of InvalidTokenError. -/
def isInvalidTokenError : JwtError → Bool
  | .decodeError => true
  | .invalidSignatureError => true
  | .invalidAlgorithmError => true
  | .missingRequiredClaimError _ => true
  | .expiredSignatureError => true
  | .invalidSubjectError => true

/-- Membership in the jwt.ExpiredSignatureError class. -/
def isExpiredSignatureError : JwtError → Bool
  | .expiredSignatureError => true
  | _ => false

/-- payload.get("sub"), read under the guarantee of validate_sub that a
present sub claim is a string; the num arm is unreachable after a
successful decode. -/
def payload_get_sub (payload : Claims) : Option String :=
  match claims_lookup "sub" payload with
  | some (.str s) => some s
  | some (.num _) => none
  | none => none

/-- src/auth.py verify_access_token: decode with the configured secret,
the single configured algorithm and required claims exp and sub; the
except clause catches jwt.InvalidTokenError and jwt.ExpiredSignatureError
and returns None, while an exception outside those classes would
propagate to the caller. -/
def verify_access_token (tok : TokenStr) (st : Settings) (now : Int) :
    Except JwtError (Option String) :=
  match jwt_decode tok st.SECRET_KEY [st.ALGORITHM] ["exp", "sub"] now with
  | .ok payload => .ok (payload_get_sub payload)
  | .error e =>
    if isInvalidTokenError e || isExpiredSignatureError e then .ok none
    else .error e

/-- src/routers/users.py login_for_access_token, token minting step: the
claim dict is the single subject entry str(user.id) and the delta is the
configured lifetime in minutes. -/
def login_token (user_id : Int) (st : Settings) (now : Int) : Jwt :=
  create_access_token [("sub", .str (toString user_id))]
    (some (st.ACCESS_TOKEN_EXPIRE_MINUTES * 60)) st now

/-- Model of the Argon2 digest: a deterministic function of the salt and
the password.  The verified code relies only on its recomputability from
the salt stored inside the hash string. -/
def argon2_digest (salt : Nat) (password : String) : Nat :=
  (strCode password * 65599 + salt) % 2 ^ 64

/-- The space of hash strings as pwdlib identification sees them: strings
in the Argon2 format, carrying their salt and digest, and strings no
configured hasher identifies because they do not start with the Argon2
marker.  Strings that carry the Argon2 marker but are corrupt beyond it
are not modelled. -/
inductive HashStr where
  | argon2 : Nat → Nat → HashStr
  | foreign : String → HashStr
deriving DecidableEq

/-- The pwdlib exception raised when no hasher identifies a hash. -/
inductive PwdlibError where
  | unknownHashError : PwdlibError
deriving DecidableEq

/-- pwdlib PasswordHash.recommended().verify: the Argon2 hasher handles
the hashes it identifies and returns a boolean; when no hasher identifies
the hash, pwdlib raises UnknownHashError. -/
def passwordHash_verify (password : String) (hash : HashStr) :
    Except PwdlibError Bool :=
  match hash with
  | .argon2 salt digest => .ok (argon2_digest salt password == digest)
  | .foreign _ => .error .unknownHashError

/-- src/auth.py hash_password: an Argon2 hash with a fresh random salt per
call; the salt drawn by the library is made an explicit argument here. -/
def hash_password (salt : Nat) (password : String) : HashStr :=
  .argon2 salt (argon2_digest salt password)

/-- src/auth.py verify_password: delegate to the pwdlib hasher with no
exception handling of its own. -/
def verify_password (plain_password : String) (hashed_password : HashStr) :
    Except PwdlibError Bool :=
  passwordHash_verify plain_password hashed_password

/-- fastapi HTTPException reduced to its status code and detail string. -/
structure HTTPException where
  status : Nat
  detail : String
deriving DecidableEq

/-- src/routers/users.py get_current_user, authentication part: verify the
bearer token, then parse the returned subject with int(); a None subject
and an unparseable subject each raise a 401 HTTPException.  An exception
escaping verify_access_token would surface as a 500 response.  The ok
result is the integer user id handed to the database lookup, which is an
external collaborator outside this embedding. -/
def get_current_user_auth (tok : TokenStr) (st : Settings) (now : Int) :
    Except HTTPException Int :=
  match verify_access_token tok st now with
  | .error _ => .error { status := 500, detail := "Internal Server Error" }
  | .ok none =>
    .error { status := 401, detail := "Invalid authentication credentials" }
  | .ok (some user_id) =>
    match pyint_parse user_id with
    | none => .error { status := 401, detail := "Invalid or expired token" }
    | some n => .ok n

/-! Dictionary lemmas. -/

theorem claims_lookup_set_self (c : Claims) (k : String) (v : JVal) :
    claims_lookup k (claims_set c k v) = some v := by
  induction c with
  | nil => simp [claims_set, claims_lookup]
  | cons hd tl ih =>
    obtain ⟨k2, v2⟩ := hd
    by_cases h : k2 = k
    · subst h; simp [claims_set, claims_lookup]
    · simp [claims_set, claims_lookup, h, ih]

theorem claims_lookup_set_ne (c : Claims) (k k2 : String) (v : JVal)
    (h : k ≠ k2) : claims_lookup k (claims_set c k2 v) = claims_lookup k c := by
  induction c with
  | nil => simp [claims_set, claims_lookup, Ne.symm h]
  | cons hd tl ih =>
    obtain ⟨a, b⟩ := hd
    by_cases ha : a = k2
    · subst ha; simp [claims_set, claims_lookup, Ne.symm h]
    · simp [claims_set, claims_lookup, ha, ih]

theorem claims_set_set (c : Claims) (k : String) (v w : JVal) :
    claims_set (claims_set c k v) k w = claims_set c k w := by
  induction c with
  | nil => simp [claims_set]
  | cons hd tl ih =>
    obtain ⟨a, b⟩ := hd
    by_cases ha : a = k
    · subst ha; simp [claims_set]
    · simp [claims_set, ha, ih]

/-- Verification of a token freshly minted with claim dict containing
exactly the subject S and delta ttl, evaluated at verification time t:
it succeeds with S exactly when t is strictly before now + ttl, and
returns the None sentinel otherwise. -/
theorem verify_create_sub_eq (S : String) (ttl : Int) (st : Settings)
    (now t : Int) :
    verify_access_token
      (.wellFormed (create_access_token [("sub", JVal.str S)] (some ttl) st now))
      st t = .ok (if t < now + ttl then some S else none) := by
  by_cases h : t < now + ttl
  · simp [verify_access_token, jwt_decode, create_access_token, jwt_encode,
      validate_required, validate_exp, validate_sub, payload_get_sub,
      claims_set, claims_lookup, h, not_le.mpr h]
  · simp [verify_access_token, jwt_decode, create_access_token, jwt_encode,
      validate_required, validate_exp, validate_sub, payload_get_sub,
      claims_set, claims_lookup, h, not_lt.mp h, isInvalidTokenError]

/-! Claim theorems. -/

/-- C1: token round trip.  For every subject S and positive ttl, a token
minted by create_access_token with data containing sub = S and
expires_delta = ttl, verified with verify_access_token under the same
settings at any time t at or after creation and strictly before the ttl
elapses, returns S. -/
theorem token_round_trip (S : String) (ttl : Int) (st : Settings)
    (now t : Int) (httl : 0 < ttl) (hafter : now ≤ t)
    (hbefore : t < now + ttl) :
    verify_access_token
      (.wellFormed (create_access_token [("sub", JVal.str S)] (some ttl) st now))
      st t = .ok (some S) := by
  rw [verify_create_sub_eq]
  simp [hbefore]

/-- Witness for C1 at S = "alice", ttl = 60, now = t = 0. -/
theorem token_round_trip_witness :
    verify_access_token
      (.wellFormed (create_access_token [("sub", JVal.str "alice")] (some 60)
        (Settings.ofSecretKey "secret") 0))
      (Settings.ofSecretKey "secret") 0 = .ok (some "alice") :=
  token_round_trip "alice" 60 (Settings.ofSecretKey "secret") 0 0
    (by decide) (by decide) (by decide)

/-- C3: verify_access_token never raises: for every input token it
evaluates to an ok result, and on every decode failure, of any cause, the
result is the single None sentinel — the cause is not distinguishable
from the returned value. -/
theorem verify_never_raises (tok : TokenStr) (st : Settings) (now : Int) :
    verify_access_token tok st now =
      .ok (match jwt_decode tok st.SECRET_KEY [st.ALGORITHM] ["exp", "sub"] now with
           | .ok payload => payload_get_sub payload
           | .error _ => none) := by
  cases h : jwt_decode tok st.SECRET_KEY [st.ALGORITHM] ["exp", "sub"] now with
  | ok payload => simp [verify_access_token, h]
  | error e =>
    cases e <;>
      simp [verify_access_token, h, isInvalidTokenError, isExpiredSignatureError]

/-- C4: the claim set of a minted token carries the caller-supplied
subject claim, an exp claim equal to now + ttl, and every other
caller-supplied claim unchanged. -/
theorem create_token_claim_set (data : Claims) (v : JVal) (ttl : Int)
    (st : Settings) (now : Int) (k : String)
    (hsub : claims_lookup "sub" data = some v) (hk : k ≠ "exp") :
    claims_lookup "sub" (create_access_token data (some ttl) st now).claims
      = some v ∧
    claims_lookup "exp" (create_access_token data (some ttl) st now).claims
      = some (JVal.num (now + ttl)) ∧
    claims_lookup k (create_access_token data (some ttl) st now).claims
      = claims_lookup k data := by
  refine ⟨?_, ?_, ?_⟩
  · simpa [create_access_token, jwt_encode,
      claims_lookup_set_ne data "sub" "exp" _ (by decide)] using hsub
  · simp [create_access_token, jwt_encode, claims_lookup_set_self]
  · simp [create_access_token, jwt_encode,
      claims_lookup_set_ne data k "exp" _ hk]

/-- Witness for C4 on the login claim dict extended with one extra claim,
at now = 100 and ttl = 1800. -/
theorem create_token_claim_set_witness :
    claims_lookup "sub" (create_access_token
      [("sub", JVal.str "42"), ("role", JVal.str "admin")] (some 1800)
      (Settings.ofSecretKey "k") 100).claims = some (JVal.str "42") ∧
    claims_lookup "exp" (create_access_token
      [("sub", JVal.str "42"), ("role", JVal.str "admin")] (some 1800)
      (Settings.ofSecretKey "k") 100).claims = some (JVal.num (100 + 1800)) ∧
    claims_lookup "role" (create_access_token
      [("sub", JVal.str "42"), ("role", JVal.str "admin")] (some 1800)
      (Settings.ofSecretKey "k") 100).claims
      = claims_lookup "role" [("sub", JVal.str "42"), ("role", JVal.str "admin")] :=
  create_token_claim_set [("sub", JVal.str "42"), ("role", JVal.str "admin")]
    (JVal.str "42") 1800 (Settings.ofSecretKey "k") 100 "role" rfl (by decide)

/-- C5: a correctly signed, well-formed token whose claim set lacks the
sub claim or lacks the exp claim is rejected by verify_access_token with
the None sentinel, through the explicit required-claims policy. -/
theorem missing_claim_invalid (c : Claims) (st : Settings) (now : Int)
    (h : claims_lookup "sub" c = none ∨ claims_lookup "exp" c = none) :
    verify_access_token (.wellFormed (jwt_encode c st.SECRET_KEY st.ALGORITHM))
      st now = .ok none := by
  have hreq : ∃ cl, validate_required c ["exp", "sub"]
      = .error (.missingRequiredClaimError cl) := by
    rcases h with hs | he
    · rcases hx : claims_lookup "exp" c with _ | v
      · exact ⟨"exp", by simp [validate_required, hx]⟩
      · exact ⟨"sub", by simp [validate_required, hx, hs]⟩
    · exact ⟨"exp", by simp [validate_required, he]⟩
  obtain ⟨cl, hcl⟩ := hreq
  simp [verify_access_token, jwt_decode, jwt_encode, hcl, isInvalidTokenError]

/-- Witness for C5: an unexpired, correctly signed token with a sub claim
but no exp claim is rejected. -/
theorem missing_claim_invalid_witness :
    verify_access_token
      (.wellFormed (jwt_encode [("sub", JVal.str "7")] "secret2" "HS256"))
      (Settings.ofSecretKey "secret2") 5 = .ok none :=
  missing_claim_invalid [("sub", JVal.str "7")]
    (Settings.ofSecretKey "secret2") 5 (Or.inr rfl)

/-- C6: expiry semantics.  Verification of a minted token at time t
succeeds with the subject exactly when t is strictly before
exp = now + ttl and yields the None sentinel otherwise; in particular a
token minted with ttl = -1 is already invalid at its own creation time,
and a token is invalid at the instant t = exp and ever after. -/
theorem token_expiry_boundary (S : String) (ttl : Int) (st : Settings)
    (now t : Int) :
    verify_access_token
      (.wellFormed (create_access_token [("sub", JVal.str S)] (some ttl) st now))
      st t = .ok (if t < now + ttl then some S else none) :=
  verify_create_sub_eq S ttl st now t

/-- C7: password round trip.  For every password and every salt the
library draws, verifying the password against its fresh hash returns
true. -/
theorem password_round_trip (salt : Nat) (password : String) :
    verify_password password (hash_password salt password) = .ok true := by
  simp [verify_password, passwordHash_verify, hash_password]

/-- C2 counterexample: on a hash string in a foreign format (a bcrypt
hash, which the Argon2-only recommended hasher list does not identify),
verify_password raises pwdlib UnknownHashError instead of returning
false, refuting the claim that it returns a boolean on every input. -/
theorem verify_password_raises_on_foreign :
    verify_password "password" (HashStr.foreign "$2b$12$KIXQ")
      = .error PwdlibError.unknownHashError := rfl

/-- C2 amended: for every plaintext and every hash the hasher list
identifies as Argon2 format, verify_password returns a boolean and does
not raise; for a hash in a format no configured hasher identifies,
verify_password raises pwdlib UnknownHashError instead of returning
false. -/
theorem verify_password_error_behavior (p : String) (salt digest : Nat)
    (s : String) :
    (∃ b : Bool, verify_password p (HashStr.argon2 salt digest) = .ok b) ∧
    verify_password p (HashStr.foreign s) = .error PwdlibError.unknownHashError :=
  ⟨⟨argon2_digest salt p == digest, rfl⟩, rfl⟩

/-- C8: when verify_access_token hands the routing layer a subject string
that does not parse as an integer user id, get_current_user answers with
a 401 unauthorized HTTPException, exactly as for an invalid token, and
not with a 500 server error. -/
theorem unparseable_subject_unauthorized (tok : TokenStr) (st : Settings)
    (now : Int) (s : String)
    (hs : verify_access_token tok st now = .ok (some s))
    (hp : pyint_parse s = none) :
    get_current_user_auth tok st now
      = .error { status := 401, detail := "Invalid or expired token" } := by
  simp [get_current_user_auth, hs, hp]

/-- Witness for C8: a validly signed unexpired token whose subject is the
non-numeric string "abc". -/
theorem unparseable_subject_unauthorized_witness :
    get_current_user_auth
      (.wellFormed (create_access_token [("sub", JVal.str "abc")] (some 60)
        (Settings.ofSecretKey "s3cr3t") 0))
      (Settings.ofSecretKey "s3cr3t") 0
      = .error { status := 401, detail := "Invalid or expired token" } :=
  unparseable_subject_unauthorized
    (.wellFormed (create_access_token [("sub", JVal.str "abc")] (some 60)
      (Settings.ofSecretKey "s3cr3t") 0))
    (Settings.ofSecretKey "s3cr3t") 0 "abc"
    (by rw [verify_create_sub_eq]; norm_num) (by rfl)

/-- C9: default lifetime.  Without an expires_delta the minted exp claim
is now plus the configured ACCESS_TOKEN_EXPIRE_MINUTES; with a delta the
caller value is used instead; and the configured default of
ACCESS_TOKEN_EXPIRE_MINUTES is 30 minutes. -/
theorem default_token_lifetime (data : Claims) (st : Settings)
    (now ttl : Int) (key : String) :
    claims_lookup "exp" (create_access_token data none st now).claims
      = some (JVal.num (now + st.ACCESS_TOKEN_EXPIRE_MINUTES * 60)) ∧
    claims_lookup "exp" (create_access_token data (some ttl) st now).claims
      = some (JVal.num (now + ttl)) ∧
    (Settings.ofSecretKey key).ACCESS_TOKEN_EXPIRE_MINUTES = 30 := by
  refine ⟨?_, ?_, rfl⟩ <;>
    simp [create_access_token, jwt_encode, claims_lookup_set_self]

/-- C10: a caller-supplied exp entry is silently overwritten: minting
from a dict whose exp claim was set to any value produces the same token
as minting from the dict without that update, and the minted exp claim is
always now + ttl.  The caller dict itself is unchanged, the function
working on a copy, which the pure embedding renders automatic. -/
theorem exp_claim_overwritten (data : Claims) (v : JVal) (ttl : Int)
    (st : Settings) (now : Int) :
    create_access_token (claims_set data "exp" v) (some ttl) st now
      = create_access_token data (some ttl) st now ∧
    claims_lookup "exp"
      (create_access_token (claims_set data "exp" v) (some ttl) st now).claims
      = some (JVal.num (now + ttl)) := by
  constructor
  · simp [create_access_token, claims_set_set]
  · simp [create_access_token, jwt_encode, claims_set_set,
      claims_lookup_set_self]

end FastapiBlog
